import Mathlib

/-!
Shallow embedding of the authentication/authorization core of the oqt-mcp
gateway: the RBAC permission check (`src/auth/rbac.py`), the JWKS cache
(`src/auth/service.py:get_jwks`), the authentication gate
(`src/auth/service.py:get_current_user`), role extraction
(`src/auth/service.py:_extract_roles`) and the tool invocation pipeline
(`src/tools/registry.py:ToolRegistry.execute`).

Python dictionaries over JSON-like values are modelled as association lists
of `String × JVal`; Python truthiness of containers is modelled explicitly
where the source relies on it.  Network fetches and token decodings are
modelled as oracle outcomes passed in as arguments, so each call site's
control flow can be stated as a pure function of those outcomes.
-/

namespace OqtMcp

/-- A JSON-like Python value, as found in JWT claim bags and JWKS payloads. -/
inductive JVal where
  | str (s : String)
  | num (n : Int)
  | boolean (b : Bool)
  | null
  | list (xs : List JVal)
  | obj (fields : List (String × JVal))
deriving Repr

mutual

/-- Python `repr` of a JSON-like value (strings quoted). -/
def pyRepr : JVal → String
  | .str s => "\x27" ++ s ++ "\x27"
  | .num n => toString n
  | .boolean b => if b then "True" else "False"
  | .null => "None"
  | .list xs => "[" ++ String.intercalate ", " (pyReprList xs) ++ "]"
  | .obj fields => "\x7b" ++ String.intercalate ", " (pyReprFields fields) ++ "\x7d"

def pyReprList : List JVal → List String
  | [] => []
  | x :: xs => pyRepr x :: pyReprList xs

def pyReprFields : List (String × JVal) → List String
  | [] => []
  | (k, v) :: xs => ("\x27" ++ k ++ "\x27: " ++ pyRepr v) :: pyReprFields xs

end

/-- Python `str` of a JSON-like value: a string is itself, everything else
its `repr`. -/
def pyStr : JVal → String
  | .str s => s
  | v => pyRepr v

/-- Whether `pat` occurs at the start of `s` (character lists). -/
def startsWithChars : List Char → List Char → Bool
  | [], _ => true
  | _ :: _, [] => false
  | a :: pat, b :: s => a == b && startsWithChars pat s

/-- Whether `pat` occurs anywhere inside `s` (character lists). -/
def hasInfixChars (pat : List Char) : List Char → Bool
  | [] => pat.isEmpty
  | c :: rest => startsWithChars pat (c :: rest) || hasInfixChars pat rest

/-- Python `pat in s` substring test. -/
def strContains (s pat : String) : Bool :=
  hasInfixChars pat.toList s.toList

/-- Python `s.split(".")`: split a character list on the dot character. -/
def splitOnDot : List Char → List (List Char)
  | [] => [[]]
  | c :: cs =>
    match splitOnDot cs with
    | [] => [[]]
    | r :: rs => if c == '.' then [] :: r :: rs else (c :: r) :: rs

/-- Python `str.lower` on an ASCII character (claim-relevant messages are
ASCII). -/
def charLower (c : Char) : Char :=
  if 'A' ≤ c && c ≤ 'Z' then Char.ofNat (c.toNat + 32) else c

/-- Python `s.lower()` (ASCII). -/
def pyLower (s : String) : String :=
  String.mk (s.toList.map charLower)

/-- Python dict lookup `d.get(k)` on an association list. -/
def dictGet (d : List (String × JVal)) (k : String) : Option JVal :=
  d.lookup k

/-- Python `d | {k: v}` merge for a single key: replaces the value in place
when the key exists, otherwise appends the pair. -/
def dictSet (d : List (String × JVal)) (k : String) (v : JVal) :
    List (String × JVal) :=
  if (d.lookup k).isSome then
    d.map (fun p => if p.1 = k then (k, v) else p)
  else
    d ++ [(k, v)]

/-! ## RBAC: `src/auth/rbac.py` -/

/-- The Permission Table: a mapping from role name to the list of tool names
that role may invoke (`TOOL_PERMISSIONS`). -/
abbrev PermTable := List (String × List String)

/-- `check_permission(user_roles, tool_name)`: scans the user's roles and
grants as soon as some role's allowed-tool list (looked up with `.get`,
skipped when missing or empty — Python truthiness) contains the tool name;
otherwise denies. -/
def check_permission (table : PermTable) (user_roles : List String)
    (tool_name : String) : Bool :=
  user_roles.any fun role =>
    match table.lookup role with
    | some allowed_tools => !allowed_tools.isEmpty && allowed_tools.contains tool_name
    | none => false

/-- Outcome of `_load_permissions()`: either the parsed JSON mapping, or any
raised exception (`FileNotFoundError`, `JSONDecodeError`, or anything else —
all are caught alike by the module-level `except Exception`). -/
inductive PermLoadResult where
  | ok (data : List (String × List String))
  | loadError
deriving Repr, DecidableEq

/-- `sorted(set(tools))`: deduplicate, then sort. -/
def dedupSort (ts : List String) : List String :=
  ts.eraseDups.mergeSort (fun a b => decide (a ≤ b))

/-- The module-level `TOOL_PERMISSIONS` binding: the loaded table with each
role's tools deduplicated and sorted, or the empty mapping when loading
raised. -/
def tool_permissions : PermLoadResult → PermTable
  | .ok data => data.map fun rt => (rt.1, dedupSort rt.2)
  | .loadError => []

/-! ## JWKS cache: `src/auth/service.py` -/

/-- A fetched JWKS payload: the top-level JSON object returned by
`response.json()` (an association list of fields).  Python truthiness of the
stored payload (`if _jwks_cache["data"]`) is emptiness of this object. -/
abbrev JwksPayload := List (String × JVal)

/-- The module-level `_jwks_cache` state: the last stored payload and its
expiry timestamp (both `None` at process start). -/
structure JwksCache where
  data : Option JwksPayload
  expiresAt : Option Nat
deriving Repr

/-- Truthiness of `_jwks_cache["data"]`: present and a non-empty object. -/
def payloadTruthy : Option JwksPayload → Bool
  | some p => !p.isEmpty
  | none => false

/-- Configuration consumed by `get_jwks`: whether `JWKS_URI` is set, and the
configured `JWKS_CACHE_TTL_SECONDS` (an int, possibly non-positive). -/
structure JwksConfig where
  jwksUriConfigured : Bool
  ttlSeconds : Int

/-- `_cache_ttl()`: the configured TTL when positive, else 300 seconds. -/
def cacheTtl (cfg : JwksConfig) : Nat :=
  if cfg.ttlSeconds > 0 then cfg.ttlSeconds.toNat else 300

/-- `_cache_expired()`: expired when no expiry is recorded or the current
time has reached it (`datetime.utcnow() >= expires_at`). -/
def cacheExpired (cache : JwksCache) (now : Nat) : Bool :=
  match cache.expiresAt with
  | none => true
  | some e => decide (e ≤ now)

/-- Outcome of the single `httpx.get` network attempt inside `get_jwks`:
a parsed payload, a non-2xx status (`HTTPStatusError` via
`raise_for_status`), or any other failure (network error, malformed body —
both land in the generic `except Exception`). -/
inductive FetchOutcome where
  | ok (payload : JwksPayload)
  | httpStatusError (msg : String)
  | otherError (msg : String)
deriving Repr

/-- Whether the fetch attempt failed (either exception branch). -/
def FetchOutcome.failed : FetchOutcome → Bool
  | .ok _ => false
  | .httpStatusError _ => true
  | .otherError _ => true

/-- Errors raised by `get_jwks`: the `RuntimeError` for a missing
`JWKS_URI`, or the `HTTPException` carrying an HTTP status and detail. -/
inductive JwksError where
  | notConfigured
  | serviceUnavailable (statusCode : Nat) (detail : String)
deriving Repr, DecidableEq

/-- The 503 raised when no cached data exists and the fetch failed. -/
def keySetUnavailable : JwksError :=
  .serviceUnavailable 503 "Authentication service unavailable (Unable to retrieve JWKS)."

/-- Result of one `get_jwks` call: the returned payload or raised error, the
cache state afterwards, and whether a network fetch was attempted. -/
structure JwksOutcome where
  result : Except JwksError JwksPayload
  cache : JwksCache
  fetched : Bool
deriving Repr

/-- `get_jwks(force_refresh)`, with the current time and the outcome the
network attempt would have as explicit arguments.  Mirrors the source: raise
`RuntimeError` when `JWKS_URI` is unset; serve the cache without fetching
when not forced, the stored payload is truthy and the TTL has not passed;
otherwise attempt one fetch — on success store payload and new expiry
(`_store_jwks`) and return it, on failure fall back to truthy cached data,
else raise the 503. -/
def get_jwks (cfg : JwksConfig) (cache : JwksCache) (now : Nat)
    (fetch : FetchOutcome) (force_refresh : Bool) : JwksOutcome :=
  if !cfg.jwksUriConfigured then
    { result := .error .notConfigured, cache := cache, fetched := false }
  else if !force_refresh && payloadTruthy cache.data && !cacheExpired cache now then
    { result := .ok (cache.data.getD []), cache := cache, fetched := false }
  else
    match fetch with
    | .ok payload =>
        { result := .ok payload,
          cache := { data := some payload, expiresAt := some (now + cacheTtl cfg) },
          fetched := true }
    | _ =>
        if payloadTruthy cache.data then
          { result := .ok (cache.data.getD []), cache := cache, fetched := true }
        else
          { result := .error keySetUnavailable, cache := cache, fetched := true }

/-! ## Role extraction: `src/auth/service.py:_extract_roles` -/

/-- The iterative walk inside `_extract_roles`: follow each path segment
through nested dicts via `current[key]`; a missing key, or a non-dict value
while segments remain, raises `KeyError` (here: `none`). -/
def walkPath : List String → JVal → Option JVal
  | [], v => some v
  | k :: ks, .obj fields =>
      match dictGet fields k with
      | some v => walkPath ks v
      | none => none
  | _ :: _, _ => none

/-- `_extract_roles(claims)` with the configured
`AUTH_ROLE_CLAIM_PATH` explicit.  An empty path returns
`claims.get("roles", [])` as-is; otherwise the dot-split path is walked
(`KeyError` → empty list), a list result has every element coerced with
`str(...)`, a string becomes a one-element list, and anything else yields
the empty list. -/
def extract_roles (rolePath : String) (claims : List (String × JVal)) : JVal :=
  if rolePath = "" then
    (dictGet claims "roles").getD (.list [])
  else
    match walkPath ((splitOnDot rolePath.toList).map String.mk) (.obj claims) with
    | none => .list []
    | some (.list xs) => .list (xs.map fun item => .str (pyStr item))
    | some (.str s) => .list [.str s]
    | some _ => .list []

/-! ## Authentication gate: `src/auth/service.py:get_current_user` -/

/-- `_sanitize_error`: truncate the exception message to its first 200
characters (`str(err)[:200]`). -/
def sanitizeError (msg : String) : String :=
  String.mk (msg.toList.take 200)

/-- The key-rotation classification applied to the first decode failure:
`"Unable to find a key" in str(e) or "No matching key" in str(e)`. -/
def keyRotationSuspected (msg : String) : Bool :=
  strContains msg "Unable to find a key" || strContains msg "No matching key"

/-- Outcome of one `_decode_token` call: the decoded claim bag, a
`JoseError` with its message, an `HTTPException` propagated from `get_jwks`
(e.g. the 503), or any other exception. -/
inductive DecodeOutcome where
  | ok (payload : List (String × JVal))
  | joseError (msg : String)
  | httpError (statusCode : Nat) (detail : String)
  | otherError (msg : String)
deriving Repr

/-- Failure of `get_current_user`: an `HTTPException` (status + detail), or
an exception escaping the function unhandled (a non-Jose, non-HTTP error
raised by the retry inside the `except JoseError` handler). -/
inductive GateError where
  | httpEx (statusCode : Nat) (detail : String)
  | unhandled (msg : String)
deriving Repr, DecidableEq

/-- The generic `credentials_exception`: 401 with a constant detail. -/
def credentialsException : GateError :=
  .httpEx 401 "Could not validate credentials"

/-- Result of the gate: the authenticated user dict or the error, how many
`_decode_token` calls were made, whether a forced JWKS refresh was
requested, and the sanitized error messages logged. -/
structure GateOutcome where
  result : Except GateError (List (String × JVal))
  decodeCalls : Nat
  forcedRefresh : Bool
  loggedErrors : List String
deriving Repr

/-- `User(payload | {"roles": user_roles})`: the claim bag with the `roles`
key set to the extracted roles value. -/
def buildUser (rolePath : String) (payload : List (String × JVal)) :
    List (String × JVal) :=
  dictSet payload "roles" (extract_roles rolePath payload)

/-- `get_current_user`, with the outcomes of the (up to two) `_decode_token`
calls as oracles.  Mirrors the source: bypass short-circuit; 500 when the
OAuth2 scheme is unconfigured; 401 when no bearer token; then the first
decode — a `JoseError` carrying a key-rotation marker triggers exactly one
forced-refresh decode (its `JoseError` failure → generic 401; an
`HTTPException` propagates; any other exception escapes unhandled), an
expired marker in the sanitized lowercased message → 401 "Token expired",
any other `JoseError` → generic 401; a propagated `HTTPException` is
re-raised; any other exception → generic 401. -/
def get_current_user (bypassAuth : Bool) (schemeConfigured : Bool)
    (token : Option String) (rolePath : String)
    (firstDecode secondDecode : DecodeOutcome) : GateOutcome :=
  if bypassAuth then
    { result := .ok [("sub", .str "dev|bypass"), ("roles", .list [.str "SYSTEM_BYPASS"])],
      decodeCalls := 0, forcedRefresh := false, loggedErrors := [] }
  else if !schemeConfigured then
    { result := .error (.httpEx 500 "Authentication system is not configured."),
      decodeCalls := 0, forcedRefresh := false, loggedErrors := [] }
  else
    match token with
    | none =>
        { result := .error (.httpEx 401 "Not authenticated (Bearer token missing)"),
          decodeCalls := 0, forcedRefresh := false, loggedErrors := [] }
    | some _ =>
        match firstDecode with
        | .ok payload =>
            { result := .ok (buildUser rolePath payload),
              decodeCalls := 1, forcedRefresh := false, loggedErrors := [] }
        | .joseError msg =>
            if keyRotationSuspected msg then
              match secondDecode with
              | .ok payload =>
                  { result := .ok (buildUser rolePath payload),
                    decodeCalls := 2, forcedRefresh := true, loggedErrors := [] }
              | .joseError msg2 =>
                  { result := .error credentialsException,
                    decodeCalls := 2, forcedRefresh := true,
                    loggedErrors := [sanitizeError msg2] }
              | .httpError s d =>
                  { result := .error (.httpEx s d),
                    decodeCalls := 2, forcedRefresh := true, loggedErrors := [] }
              | .otherError msg2 =>
                  { result := .error (.unhandled msg2),
                    decodeCalls := 2, forcedRefresh := true, loggedErrors := [] }
            else
              let message := sanitizeError msg
              if strContains (pyLower message) "expired" then
                { result := .error (.httpEx 401 "Token expired"),
                  decodeCalls := 1, forcedRefresh := false, loggedErrors := [] }
              else
                { result := .error credentialsException,
                  decodeCalls := 1, forcedRefresh := false, loggedErrors := [message] }
        | .httpError s d =>
            { result := .error (.httpEx s d),
              decodeCalls := 1, forcedRefresh := false, loggedErrors := [] }
        | .otherError msg =>
            { result := .error credentialsException,
              decodeCalls := 1, forcedRefresh := false,
              loggedErrors := [sanitizeError msg] }

/-! ## Tool invocation pipeline: `src/tools/registry.py:ToolRegistry.execute` -/

/-- One audit event as passed to `audit.emit` by `execute`. -/
structure AuditEvent where
  type : String
  tool : String
  userId : String
  status : String
  error : Option String := none
  params : Option String := none
deriving Repr, DecidableEq

/-- A registered tool's callable parts: parameter validation
(`parameters_model.model_validate`, raising on bad input) and the
implementation (raising on execution failure).  The stored definition and
schema play no role in `execute`. -/
structure ToolEntry (P V R : Type) where
  validate : P → Except String V
  impl : V → Except String R

/-- The registry's `_tools` mapping, keyed by tool name. -/
abbrev Registry (P V R : Type) := List (String × ToolEntry P V R)

/-- The authenticated caller as `execute` consumes it: `user.id` and
`user.roles`. -/
structure Principal where
  id : String
  roles : List String
deriving Repr, DecidableEq

/-- Errors raised by `execute`: `ToolNotFoundError`, `PermissionError`,
`InputValidationError`, or the re-raised implementation exception. -/
inductive ExecError where
  | toolNotFound
  | permissionError
  | inputValidation (details : String)
  | executionError (msg : String)
deriving Repr, DecidableEq

/-- Result of one `execute` call: the returned value or raised error, the
audit events emitted, and whether the tool implementation was invoked. -/
structure ExecOutcome (R : Type) where
  result : Except ExecError R
  audits : List AuditEvent
  implRan : Bool
deriving Repr

/-- `ToolRegistry.execute(name, params, user)`, with the permission table
explicit and `json.dumps(params, ...)` modelled as an optional
pre-serialized string (`none` = serialization raised).  Mirrors the source:
unknown tool → `ToolNotFoundError`; `check_permission` denial → audit event
with status `"forbidden"` and `PermissionError`; validation failure →
`InputValidationError`; implementation failure → audit `"error"` and
re-raise; success → audit `"success"` with the parameter summary truncated
to 500 characters. -/
def execute {P V R : Type} (perms : PermTable) (reg : Registry P V R)
    (name : String) (params : P) (paramsJson : Option String)
    (user : Principal) : ExecOutcome R :=
  match reg.lookup name with
  | none => { result := .error .toolNotFound, audits := [], implRan := false }
  | some tool =>
    if !check_permission perms user.roles name then
      { result := .error .permissionError,
        audits := [{ type := "tool_execution", tool := name,
                     userId := user.id, status := "forbidden" }],
        implRan := false }
    else
      match tool.validate params with
      | .error e =>
          { result := .error (.inputValidation e), audits := [], implRan := false }
      | .ok validated_params =>
          match tool.impl validated_params with
          | .error exc =>
              { result := .error (.executionError exc),
                audits := [{ type := "tool_execution", tool := name,
                             userId := user.id, status := "error",
                             error := some exc }],
                implRan := true }
          | .ok r =>
              let logged_params :=
                match paramsJson with
                | some s => s.take 500
                | none => "Params serialization failed"
              { result := .ok r,
                audits := [{ type := "tool_execution", tool := name,
                             userId := user.id, status := "success",
                             params := some logged_params }],
                implRan := true }

/-! ## Auxiliary definitions used by the theorems -/

/-- The class of gate inputs whose verification ultimately fails for a
reason other than expiry: a first `JoseError` classified neither as key
rotation nor expired; a first key-rotation `JoseError` whose retry fails
with a `JoseError`; or an unexpected (non-Jose, non-HTTP) first failure. -/
def nonExpiryAuthFailure (firstDecode secondDecode : DecodeOutcome) : Prop :=
  (∃ m, firstDecode = .joseError m ∧ keyRotationSuspected m = false ∧
    strContains (pyLower (sanitizeError m)) "expired" = false) ∨
  (∃ m m2, firstDecode = .joseError m ∧ keyRotationSuspected m = true ∧
    secondDecode = .joseError m2) ∨
  (∃ m, firstDecode = .otherError m)

/-- A concrete one-tool registry used to instantiate the pipeline
theorems. -/
def demoReg : Registry Nat Nat Nat :=
  [("edit_tool", { validate := fun n => .ok n, impl := fun n => .ok (n + 1) })]

/-- A concrete permission table granting `edit_tool` to RESEARCHER only. -/
def demoPerms : PermTable := [("RESEARCHER", ["edit_tool"])]

/-- The role-extraction scenario claim bag: the configured nested path and a
decoy top-level `roles` key. -/
def scenarioClaims : List (String × JVal) :=
  [("custom", .obj [("claim", .obj [("roles", .list [.str "RESEARCHER"])])]),
   ("roles", .list [.str "IGNORED"])]

/-- A concrete non-empty JWKS payload. -/
def demoPayload : JwksPayload := [("keys", .list [.str "k1"])]

/-! ## Theorems -/

/-- Helper: under a configured `JWKS_URI`, `get_jwks` raises the 503
exactly when the cached payload is not truthy and the fetch attempt
failed. -/
theorem get_jwks_error_char (cfg : JwksConfig) (cache : JwksCache) (now : Nat)
    (fetch : FetchOutcome) (force_refresh : Bool)
    (hcfg : cfg.jwksUriConfigured = true) :
    (get_jwks cfg cache now fetch force_refresh).result = .error keySetUnavailable ↔
      payloadTruthy cache.data = false ∧ fetch.failed = true := by
  cases fetch <;> cases htr : payloadTruthy cache.data <;>
    simp [get_jwks, hcfg, htr, FetchOutcome.failed, keySetUnavailable] <;>
    (try (split <;> simp))

/-- Helper: under a configured `JWKS_URI`, `get_jwks` either returns a
payload or raises the 503. -/
theorem get_jwks_total (cfg : JwksConfig) (cache : JwksCache) (now : Nat)
    (fetch : FetchOutcome) (force_refresh : Bool)
    (hcfg : cfg.jwksUriConfigured = true) :
    (∃ p, (get_jwks cfg cache now fetch force_refresh).result = .ok p) ∨
      (get_jwks cfg cache now fetch force_refresh).result = .error keySetUnavailable := by
  unfold get_jwks
  split
  next h => rw [hcfg] at h; simp at h
  next =>
    split
    · exact .inl ⟨_, rfl⟩
    · split
      · exact .inl ⟨_, rfl⟩
      · split
        · exact .inl ⟨_, rfl⟩
        · exact .inr rfl

/-- Helper: `_sanitize_error` yields at most 200 characters. -/
theorem sanitizeError_length (m : String) : (sanitizeError m).length ≤ 200 := by
  calc (sanitizeError m).length = (m.toList.take 200).length := rfl
    _ ≤ 200 := by rw [List.length_take]; exact Nat.min_le_left _ _

/-- C1: in `ToolRegistry.execute`, the tool implementation runs only after
the tool is found in the registry, `check_permission` grants, and the
parameters validate; and whenever the authorization check denies (on a
registered tool), an audit event with status `"forbidden"` is emitted, the
call fails with `PermissionError`, and the implementation never runs. -/
theorem execute_authz_hard_gate {P V R : Type} (perms : PermTable)
    (reg : Registry P V R) (name : String) (params : P)
    (paramsJson : Option String) (user : Principal) :
    ((execute perms reg name params paramsJson user).implRan = true →
      ∃ tool, reg.lookup name = some tool ∧
        check_permission perms user.roles name = true ∧
        ∃ v, tool.validate params = .ok v) ∧
    (∀ tool, reg.lookup name = some tool →
      check_permission perms user.roles name = false →
      (execute perms reg name params paramsJson user).result = .error .permissionError ∧
      (execute perms reg name params paramsJson user).implRan = false ∧
      (execute perms reg name params paramsJson user).audits =
        [{ type := "tool_execution", tool := name, userId := user.id,
           status := "forbidden" }]) := by
  constructor
  · intro hran
    unfold execute at hran
    cases hlook : reg.lookup name with
    | none => rw [hlook] at hran; simp at hran
    | some tool =>
      rw [hlook] at hran
      cases hperm : check_permission perms user.roles name with
      | false => simp [hperm] at hran
      | true =>
        cases hval : tool.validate params with
        | error e => simp [hperm, hval] at hran
        | ok v => exact ⟨tool, rfl, rfl, v, hval⟩
  · intro tool hlook hperm
    unfold execute
    rw [hlook]
    simp [hperm]

/-- C1 witness: a GUEST calling `edit_tool` (granted only to RESEARCHER) is
denied without the implementation running. -/
theorem execute_authz_hard_gate_witness :
    (execute demoPerms demoReg "edit_tool" 0 (some "0")
      { id := "u1", roles := ["GUEST"] }).result = .error .permissionError ∧
    (execute demoPerms demoReg "edit_tool" 0 (some "0")
      { id := "u1", roles := ["GUEST"] }).implRan = false := by
  have h := (execute_authz_hard_gate demoPerms demoReg "edit_tool" 0 (some "0")
    { id := "u1", roles := ["GUEST"] }).2
    { validate := fun n => .ok n, impl := fun n => .ok (n + 1) } rfl rfl
  exact ⟨h.1, h.2.1⟩

/-- C2: `check_permission(roles, T)` is true iff some listed role's
Permission Table entry contains T; it is false on the empty role list, is
total (never throws), and is invariant under permutation of the roles. -/
theorem check_permission_correct (table : PermTable) (roles roles2 : List String)
    (T : String) :
    (check_permission table roles T = true ↔
      ∃ r, r ∈ roles ∧ ∃ allowed, table.lookup r = some allowed ∧ T ∈ allowed)
    ∧ check_permission table [] T = false
    ∧ (roles.Perm roles2 →
        check_permission table roles T = check_permission table roles2 T) := by
  have key : ∀ rs : List String, check_permission table rs T = true ↔
      ∃ r, r ∈ rs ∧ ∃ allowed, table.lookup r = some allowed ∧ T ∈ allowed := by
    intro rs
    unfold check_permission
    rw [List.any_eq_true]
    apply exists_congr
    intro r
    apply and_congr_right
    intro _
    cases h : table.lookup r with
    | none => simp
    | some allowed =>
      simp only [Bool.and_eq_true, Bool.not_eq_true', List.isEmpty_eq_false]
      constructor
      · rintro ⟨hne, hc⟩
        exact ⟨allowed, rfl, by simpa [List.contains, List.elem_iff] using hc⟩
      · rintro ⟨l, hl, hT⟩
        cases hl
        refine ⟨List.ne_nil_of_mem hT, by simpa [List.contains, List.elem_iff] using hT⟩
  refine ⟨key roles, ?_, ?_⟩
  · unfold check_permission; rfl
  · intro hperm
    rw [Bool.eq_iff_iff, key roles, key roles2]
    constructor
    · rintro ⟨r, hr, hrest⟩; exact ⟨r, hperm.mem_iff.mp hr, hrest⟩
    · rintro ⟨r, hr, hrest⟩; exact ⟨r, hperm.mem_iff.mpr hr, hrest⟩

/-- C2 witness: `["UNKNOWN", "RESEARCHER"]` is granted `edit_tool` under
`{RESEARCHER: [edit_tool]}`, and reordering the roles cannot change the
decision. -/
theorem check_permission_correct_witness :
    check_permission demoPerms ["UNKNOWN", "RESEARCHER"] "edit_tool" =
      check_permission demoPerms ["RESEARCHER", "UNKNOWN"] "edit_tool" ∧
    check_permission demoPerms ["UNKNOWN", "RESEARCHER"] "edit_tool" = true := by
  have h := check_permission_correct demoPerms ["UNKNOWN", "RESEARCHER"]
    ["RESEARCHER", "UNKNOWN"] "edit_tool"
  exact ⟨h.2.2 (by decide), h.1.mpr ⟨"RESEARCHER", by simp, ["edit_tool"], rfl, by simp⟩⟩

/-- C3: once the cache holds a (truthy) key set, any call whose network
fetch fails returns exactly the cached key set and leaves the cache
unchanged — a failed refresh never empties or evicts it. -/
theorem jwks_failed_refresh_preserves_cache (cfg : JwksConfig) (cache : JwksCache)
    (now : Nat) (fetch : FetchOutcome) (force_refresh : Bool) (p : JwksPayload) :
    cfg.jwksUriConfigured = true → cache.data = some p → p ≠ [] →
    fetch.failed = true →
    (get_jwks cfg cache now fetch force_refresh).result = .ok p ∧
    (get_jwks cfg cache now fetch force_refresh).cache = cache := by
  intro hcfg hdata hp hfail
  cases fetch with
  | ok _ => simp [FetchOutcome.failed] at hfail
  | httpStatusError m =>
    constructor <;>
      simp [get_jwks, hcfg, payloadTruthy, hdata, hp] <;>
      first
      | rfl
      | (split <;> rfl)
  | otherError m =>
    constructor <;>
      simp [get_jwks, hcfg, payloadTruthy, hdata, hp] <;>
      first
      | rfl
      | (split <;> rfl)

/-- C3 witness: a populated cache survives a failed forced refresh and is
served as the result. -/
theorem jwks_failed_refresh_preserves_cache_witness :
    (get_jwks { jwksUriConfigured := true, ttlSeconds := 300 }
      { data := some demoPayload, expiresAt := some 100 } 200
      (.otherError "connection refused") true).result = .ok demoPayload ∧
    (get_jwks { jwksUriConfigured := true, ttlSeconds := 300 }
      { data := some demoPayload, expiresAt := some 100 } 200
      (.otherError "connection refused") true).cache =
      { data := some demoPayload, expiresAt := some 100 } :=
  jwks_failed_refresh_preserves_cache
    { jwksUriConfigured := true, ttlSeconds := 300 }
    { data := some demoPayload, expiresAt := some 100 } 200
    (.otherError "connection refused") true demoPayload rfl rfl (by simp [demoPayload]) rfl

/-- C4: a first verification failure carrying the no-matching-key marker
triggers exactly one retry with a forced JWKS refresh (two decode calls,
forced flag set); a successful second verification produces the Principal
from its claims, a failed second verification yields the generic 401; and a
first failure without the marker is never retried. -/
theorem gate_rotation_retry (token rolePath m : String) (second : DecodeOutcome) :
    (keyRotationSuspected m = true →
      (get_current_user false true (some token) rolePath (.joseError m) second).forcedRefresh = true ∧
      (get_current_user false true (some token) rolePath (.joseError m) second).decodeCalls = 2 ∧
      (∀ payload, second = .ok payload →
        (get_current_user false true (some token) rolePath (.joseError m) second).result =
          .ok (buildUser rolePath payload)) ∧
      (∀ m2, second = .joseError m2 →
        (get_current_user false true (some token) rolePath (.joseError m) second).result =
          .error credentialsException)) ∧
    (keyRotationSuspected m = false →
      (get_current_user false true (some token) rolePath (.joseError m) second).decodeCalls = 1 ∧
      (get_current_user false true (some token) rolePath (.joseError m) second).forcedRefresh = false) := by
  constructor
  · intro hrot
    refine ⟨?_, ?_, fun payload hpay => ?_, fun m2 hm2 => ?_⟩
    · cases second <;> simp [get_current_user, hrot]
    · cases second <;> simp [get_current_user, hrot]
    · subst hpay; simp [get_current_user, hrot]
    · subst hm2; simp [get_current_user, hrot]
  · intro hrot
    constructor <;>
      simp [get_current_user, hrot] <;>
      first
      | rfl
      | (split <;> rfl)

/-- C4 witness: a no-matching-key failure is retried once with a forced
refresh and a successful retry authenticates, while a signature failure is
not retried. -/
theorem gate_rotation_retry_witness :
    (get_current_user false true (some "tok") "roles"
      (.joseError "Unable to find a key that matches the kid")
      (.ok [("sub", .str "alice")])).forcedRefresh = true ∧
    (get_current_user false true (some "tok") "roles"
      (.joseError "Unable to find a key that matches the kid")
      (.ok [("sub", .str "alice")])).result =
        .ok (buildUser "roles" [("sub", .str "alice")]) ∧
    (get_current_user false true (some "tok") "roles"
      (.joseError "bad_signature: Signature verification failed")
      (.ok [("sub", .str "alice")])).decodeCalls = 1 := by
  have h := (gate_rotation_retry "tok" "roles"
    "Unable to find a key that matches the kid" (.ok [("sub", .str "alice")])).1
    (by decide)
  have h2 := (gate_rotation_retry "tok" "roles"
    "bad_signature: Signature verification failed" (.ok [("sub", .str "alice")])).2
    (by decide)
  exact ⟨h.1, h.2.2.1 [("sub", .str "alice")] rfl, h2.1⟩

/-- C5: a first verification failure classified as expired (and not as key
rotation) fails immediately with 401 "Token expired": one decode call, no
forced refresh. -/
theorem gate_expired_no_retry (token rolePath m : String) (second : DecodeOutcome) :
    keyRotationSuspected m = false →
    strContains (pyLower (sanitizeError m)) "expired" = true →
    (get_current_user false true (some token) rolePath (.joseError m) second).result =
      .error (.httpEx 401 "Token expired") ∧
    (get_current_user false true (some token) rolePath (.joseError m) second).decodeCalls = 1 ∧
    (get_current_user false true (some token) rolePath (.joseError m) second).forcedRefresh = false := by
  intro hrot hexp
  refine ⟨?_, ?_, ?_⟩ <;> simp [get_current_user, hrot, hexp]

/-- C5 witness: the authlib expired-token message yields the distinct
"Token expired" 401 with a single decode call and no forced refresh. -/
theorem gate_expired_no_retry_witness :
    (get_current_user false true (some "tok") "roles"
      (.joseError "expired_token: The token is expired")
      (.ok [])).result = .error (.httpEx 401 "Token expired") ∧
    (get_current_user false true (some "tok") "roles"
      (.joseError "expired_token: The token is expired")
      (.ok [])).decodeCalls = 1 := by
  have h := gate_expired_no_retry "tok" "roles"
    "expired_token: The token is expired" (.ok []) (by decide) (by decide)
  exact ⟨h.1, h.2.1⟩

/-- C6: with `JWKS_URI` configured, `get_jwks` fails with the 503
(KeySetUnavailable) iff no (truthy) cached data exists and the fetch
attempt fails; in every other case it returns a key set. -/
theorem get_jwks_unavailable_iff (cfg : JwksConfig) (cache : JwksCache)
    (now : Nat) (fetch : FetchOutcome) (force_refresh : Bool) :
    cfg.jwksUriConfigured = true →
    ((get_jwks cfg cache now fetch force_refresh).result = .error keySetUnavailable ↔
      payloadTruthy cache.data = false ∧ fetch.failed = true) ∧
    (¬(payloadTruthy cache.data = false ∧ fetch.failed = true) →
      ∃ p, (get_jwks cfg cache now fetch force_refresh).result = .ok p) := by
  intro hcfg
  refine ⟨get_jwks_error_char cfg cache now fetch force_refresh hcfg, fun hne => ?_⟩
  rcases get_jwks_total cfg cache now fetch force_refresh hcfg with ⟨p, hp⟩ | herr
  · exact ⟨p, hp⟩
  · exact absurd ((get_jwks_error_char cfg cache now fetch force_refresh hcfg).mp herr)
      hne

/-- C6 witness: an empty cache plus a failed fetch is exactly the 503
case. -/
theorem get_jwks_unavailable_iff_witness :
    (get_jwks { jwksUriConfigured := true, ttlSeconds := 300 }
      { data := none, expiresAt := none } 0
      (.httpStatusError "500 Internal Server Error") false).result =
      .error keySetUnavailable :=
  (get_jwks_unavailable_iff { jwksUriConfigured := true, ttlSeconds := 300 }
    { data := none, expiresAt := none } 0
    (.httpStatusError "500 Internal Server Error") false rfl).1.mpr ⟨rfl, rfl⟩

/-- C7: with a non-empty configured role path, `_extract_roles` walks the
dot-separated path: a failed walk yields the empty list (not an error), a
string yields a one-element list, a list yields its elements coerced with
`str`; and on the scenario claim bag the configured path
`custom.claim.roles` wins over the top-level `roles` key. -/
theorem extract_roles_walk (rolePath : String) (claims : List (String × JVal)) :
    rolePath ≠ "" →
    (walkPath ((splitOnDot rolePath.toList).map String.mk) (.obj claims) = none →
      extract_roles rolePath claims = .list []) ∧
    (∀ s, walkPath ((splitOnDot rolePath.toList).map String.mk) (.obj claims) =
        some (.str s) →
      extract_roles rolePath claims = .list [.str s]) ∧
    (∀ xs, walkPath ((splitOnDot rolePath.toList).map String.mk) (.obj claims) =
        some (.list xs) →
      extract_roles rolePath claims = .list (xs.map fun item => .str (pyStr item))) ∧
    extract_roles "custom.claim.roles" scenarioClaims = .list [.str "RESEARCHER"] := by
  intro hne
  refine ⟨?_, ?_, ?_, rfl⟩
  · intro h
    unfold extract_roles
    rw [if_neg hne, h]
  · intro s h
    unfold extract_roles
    rw [if_neg hne, h]
  · intro xs h
    unfold extract_roles
    rw [if_neg hne, h]

/-- C7 witness: the scenario claim bag resolves the configured path to
`["RESEARCHER"]`, and a missing path segment resolves to the empty list. -/
theorem extract_roles_walk_witness :
    extract_roles "custom.claim.roles" scenarioClaims = .list [.str "RESEARCHER"] ∧
    extract_roles "custom.claim.missing" scenarioClaims = .list [] :=
  ⟨(extract_roles_walk "custom.claim.roles" scenarioClaims (by decide)).2.2.2,
   (extract_roles_walk "custom.claim.missing" scenarioClaims (by decide)).1 rfl⟩

/-- C8: when loading the permission-table source raises, `TOOL_PERMISSIONS`
is the empty mapping and every subsequent `check_permission` call returns
false — fail-closed, no crash. -/
theorem permissions_load_fail_closed (r : PermLoadResult) (roles : List String)
    (T : String) :
    r = .loadError →
    tool_permissions r = [] ∧
    check_permission (tool_permissions r) roles T = false := by
  intro h
  subst h
  refine ⟨rfl, ?_⟩
  unfold tool_permissions check_permission
  induction roles with
  | nil => rfl
  | cons a as ih => rw [List.any_cons]; exact ih

/-- C8 witness: after a failed load, even an admin role is denied every
tool. -/
theorem permissions_load_fail_closed_witness :
    tool_permissions .loadError = [] ∧
    check_permission (tool_permissions .loadError) ["LAB_ADMIN"] "any_tool" = false :=
  permissions_load_fail_closed .loadError ["LAB_ADMIN"] "any_tool" rfl

/-- C9: the cache TTL is the configured value when positive and 300s
otherwise; a successful fetch stamps expiry `now + TTL`; a non-forced call
on a truthy, unexpired cache returns the cached data without fetching; and
two sequential non-forced calls inside one TTL window perform at most one
network fetch. -/
theorem jwks_ttl_window (cfg : JwksConfig) (cache : JwksCache) (t1 t2 : Nat)
    (p : JwksPayload) (e : Nat) (fetch fetch2 : FetchOutcome) :
    cfg.jwksUriConfigured = true →
    (cfg.ttlSeconds ≤ 0 → cacheTtl cfg = 300) ∧
    (0 < cfg.ttlSeconds → cacheTtl cfg = cfg.ttlSeconds.toNat) ∧
    ((get_jwks cfg cache t1 (.ok p) false).fetched = true →
      (get_jwks cfg cache t1 (.ok p) false).cache.expiresAt = some (t1 + cacheTtl cfg)) ∧
    (cache.data = some p → p ≠ [] → cache.expiresAt = some e → t1 < e →
      (get_jwks cfg cache t1 fetch false).result = .ok p ∧
      (get_jwks cfg cache t1 fetch false).fetched = false) ∧
    (p ≠ [] → t2 < t1 + cacheTtl cfg →
      ¬((get_jwks cfg cache t1 (.ok p) false).fetched = true ∧
        (get_jwks cfg (get_jwks cfg cache t1 (.ok p) false).cache t2 fetch2 false).fetched = true)) := by
  intro hcfg
  refine ⟨?_, ?_, ?_, ?_, ?_⟩
  · intro hle
    rw [cacheTtl, if_neg (by omega)]
  · intro hpos
    rw [cacheTtl, if_pos (by omega)]
  · intro hfetched
    by_cases hfresh : payloadTruthy cache.data = true ∧ cacheExpired cache t1 = false
    · exfalso
      rw [show (get_jwks cfg cache t1 (.ok p) false).fetched = false by
        simp [get_jwks, hcfg, hfresh]] at hfetched
      exact Bool.false_ne_true hfetched
    · simp [get_jwks, hcfg, hfresh]
  · intro hdata hp hexp ht
    have hnotexp : ¬ e ≤ t1 := Nat.not_le.mpr ht
    constructor <;>
      simp [get_jwks, hcfg, payloadTruthy, hdata, hp, cacheExpired, hexp, hnotexp]
  · intro hp ht2
    rintro ⟨h1, h2⟩
    by_cases hfresh : payloadTruthy cache.data = true ∧ cacheExpired cache t1 = false
    · rw [show (get_jwks cfg cache t1 (.ok p) false).fetched = false by
        simp [get_jwks, hcfg, hfresh]] at h1
      exact Bool.false_ne_true h1
    · have hcache : (get_jwks cfg cache t1 (.ok p) false).cache =
          { data := some p, expiresAt := some (t1 + cacheTtl cfg) } := by
        simp [get_jwks, hcfg, hfresh]
      rw [hcache] at h2
      have hnotexp : ¬ t1 + cacheTtl cfg ≤ t2 := Nat.not_le.mpr ht2
      simp [get_jwks, hcfg, payloadTruthy, hp, cacheExpired, hnotexp] at h2

/-- C9 witness: a fresh cache is served without fetching, and after a
successful fetch at time 0 a second non-forced call at time 100 (within the
300s default window) performs no second fetch. -/
theorem jwks_ttl_window_witness :
    (get_jwks { jwksUriConfigured := true, ttlSeconds := 300 }
      { data := some demoPayload, expiresAt := some 50 } 10
      (.otherError "x") false).fetched = false ∧
    ¬((get_jwks { jwksUriConfigured := true, ttlSeconds := 300 }
        { data := none, expiresAt := none } 0 (.ok demoPayload) false).fetched = true ∧
      (get_jwks { jwksUriConfigured := true, ttlSeconds := 300 }
        (get_jwks { jwksUriConfigured := true, ttlSeconds := 300 }
          { data := none, expiresAt := none } 0 (.ok demoPayload) false).cache 100
        (.otherError "x") false).fetched = true) := by
  have h1 := jwks_ttl_window { jwksUriConfigured := true, ttlSeconds := 300 }
    { data := some demoPayload, expiresAt := some 50 } 10 100 demoPayload 50
    (.otherError "x") (.otherError "x") rfl
  have h2 := jwks_ttl_window { jwksUriConfigured := true, ttlSeconds := 300 }
    { data := none, expiresAt := none } 0 100 demoPayload 50
    (.ok demoPayload) (.otherError "x") rfl
  exact ⟨(h1.2.2.2.1 rfl (by simp [demoPayload]) rfl (by decide)).2,
    h2.2.2.2.2 (by simp [demoPayload]) (by decide)⟩

/-- C10: any two authentications whose verification ultimately fails for a
reason other than expiry produce the identical external error — 401 with
the constant detail "Could not validate credentials" — and every logged
failure message is truncated to at most 200 characters. -/
theorem gate_uniform_error (t1 t2 rp1 rp2 : String) (f1 s1 f2 s2 : DecodeOutcome) :
    nonExpiryAuthFailure f1 s1 → nonExpiryAuthFailure f2 s2 →
    (get_current_user false true (some t1) rp1 f1 s1).result =
      (get_current_user false true (some t2) rp2 f2 s2).result ∧
    (get_current_user false true (some t1) rp1 f1 s1).result =
      .error credentialsException ∧
    (∀ x ∈ (get_current_user false true (some t1) rp1 f1 s1).loggedErrors,
      x.length ≤ 200) := by
  have key : ∀ (t rp : String) (f s : DecodeOutcome), nonExpiryAuthFailure f s →
      (get_current_user false true (some t) rp f s).result = .error credentialsException ∧
      ∀ x ∈ (get_current_user false true (some t) rp f s).loggedErrors,
        x.length ≤ 200 := by
    rintro t rp f s (⟨m, rfl, hrot, hexp⟩ | ⟨m, m2, rfl, hrot, rfl⟩ | ⟨m, rfl⟩)
    · constructor
      · simp [get_current_user, hrot, hexp]
      · simp [get_current_user, hrot, hexp, sanitizeError_length]
    · constructor
      · simp [get_current_user, hrot]
      · simp [get_current_user, hrot, sanitizeError_length]
    · constructor
      · simp [get_current_user]
      · simp [get_current_user, sanitizeError_length]
  intro h1 h2
  exact ⟨(key t1 rp1 f1 s1 h1).1.trans (key t2 rp2 f2 s2 h2).1.symm,
    (key t1 rp1 f1 s1 h1).1, (key t1 rp1 f1 s1 h1).2⟩

/-- C10 witness: a bad-signature failure and a key-rotation failure whose
retry also fails are externally indistinguishable — both the generic
401. -/
theorem gate_uniform_error_witness :
    (get_current_user false true (some "tokA") "roles"
      (.joseError "bad_signature: Signature verification failed")
      (.ok [])).result =
    (get_current_user false true (some "tokB") "roles"
      (.joseError "Unable to find a key that matches the kid")
      (.joseError "Unable to find a key that matches the kid")).result ∧
    (get_current_user false true (some "tokA") "roles"
      (.joseError "bad_signature: Signature verification failed")
      (.ok [])).result = .error credentialsException := by
  have h := gate_uniform_error "tokA" "tokB" "roles" "roles"
    (.joseError "bad_signature: Signature verification failed") (.ok [])
    (.joseError "Unable to find a key that matches the kid")
    (.joseError "Unable to find a key that matches the kid")
    (.inl ⟨"bad_signature: Signature verification failed", rfl, by decide, by decide⟩)
    (.inr (.inl ⟨"Unable to find a key that matches the kid",
      "Unable to find a key that matches the kid", rfl, by decide, rfl⟩))
  exact ⟨h.1, h.2.1⟩

end OqtMcp
